import Mathlib

/-!
Shallow embedding of `src/weather_dashboard.py` (Day01-Weather-Dashboard).

The program is a single-file pipeline: provision an S3 bucket, fetch current
weather for a fixed city list from the OpenWeather HTTP API, and archive each
successful payload as a timestamped JSON object.

Modelling conventions:
* JSON documents are the inductive `Json`; Python dicts are association lists
  with first-match lookup and in-place update (`setKey`), which is exactly the
  dict semantics on the duplicate-free key lists produced by JSON parsing.
* External effects (the HTTP client, boto3) are oracles: an `Oracle` record
  says, for each interaction, what the outside world answers.  Every request
  the program issues is recorded in an event trace, so that "no call is made"
  is the absence of the corresponding event from the trace.
* `requests.get` + `raise_for_status` + `.json()` is collapsed into a
  `response : Option Json` oracle value: `none` is any transport error or
  non-2xx status (both raise `RequestException` in the source, caught by one
  handler).
* The clock `datetime.now()` is the oracle field `now : DateTime`.
* `json.dumps` at write time and JSON parsing at read-back are the external
  JSON library, mutually inverse on these documents; the stored body is
  therefore modelled as the structured document itself.
* Python mutation of the caller's dict in `save_to_s3` is modelled by
  returning the payload object as the caller sees it after the call.
-/

/-- A JSON document, the shape of every payload the program handles. -/
inductive Json where
  | null : Json
  | bool : Bool → Json
  | num : Int → Json
  | str : String → Json
  | arr : List Json → Json
  | obj : List (String × Json) → Json

/-- First-match lookup in a Python dict represented as an association list. -/
def lookupKey (kvs : List (String × Json)) (k : String) : Option Json :=
  match kvs with
  | [] => none
  | p :: rest => if p.1 = k then some p.2 else lookupKey rest k

/-- Python dict assignment `d[k] = v`: replace the value at an existing key in
place, else append the new pair (dict insertion order). -/
def setKey (kvs : List (String × Json)) (k : String) (v : Json) :
    List (String × Json) :=
  match kvs with
  | [] => [(k, v)]
  | p :: rest => if p.1 = k then (k, v) :: rest else p :: setKey rest k v

/-- Python truthiness of a JSON value (`if weather_data:` in `main` and
`if not weather_data:` in `save_to_s3`). -/
def Json.falsy : Json → Bool
  | .null => true
  | .bool b => !b
  | .num n => n == 0
  | .str s => s.isEmpty
  | .arr xs => xs.isEmpty
  | .obj kvs => kvs.isEmpty

/-- Python subscript `j[k]` on a JSON value; `none` models the raised
`TypeError`/`KeyError` fault on anything but a dict holding the key. -/
def Json.lookup : Json → String → Option Json
  | .obj kvs, k => lookupKey kvs k
  | _, _ => none

/-- Python subscript `j[i]` with a numeric index; `none` models the raised
fault on anything but an array of sufficient length. -/
def Json.index : Json → Nat → Option Json
  | .arr xs, i => xs.get? i
  | _, _ => none

/-- Python truthiness of an optional string (`if not self.api_key:` where the
value came from `os.getenv`): `None` and the empty string are falsy. -/
def truthyStr : Option String → Bool
  | none => false
  | some s => !s.isEmpty

/-- A wall-clock instant, the result of `datetime.now()`. -/
structure DateTime where
  year : Nat
  month : Nat
  day : Nat
  hour : Nat
  minute : Nat
  second : Nat

/-- Zero-pad to two digits, as the strftime fields %m %d %H %M %S do. -/
def pad2 (n : Nat) : String :=
  if n < 10 then "0" ++ toString n else toString n

/-- Zero-pad to four digits, as the strftime field %Y does. -/
def pad4 (n : Nat) : String :=
  if n < 10 then "000" ++ toString n
  else if n < 100 then "00" ++ toString n
  else if n < 1000 then "0" ++ toString n
  else toString n

/-- `datetime.now().strftime('%Y%m%d-%H%M%S')`. -/
def strftime_key (t : DateTime) : String :=
  pad4 t.year ++ pad2 t.month ++ pad2 t.day ++ "-" ++
    pad2 t.hour ++ pad2 t.minute ++ pad2 t.second

/-- `f"weather-data/{city}-{timestamp}.json"` from `save_to_s3`. -/
def archive_key (city : String) (timestamp : String) : String :=
  "weather-data/" ++ city ++ "-" ++ timestamp ++ ".json"

/-- One request issued to the S3 client (boto3): the existence probe, the
creation call with its optional `LocationConstraint`, and the object put with
bucket, key, body document and content type. -/
inductive S3Request where
  | headBucket : Option String → S3Request
  | createBucket : Option String → Option String → S3Request
  | putObject : Option String → String → Json → String → S3Request

/-- One HTTP request issued by the weather fetcher (`requests.get` with its
query parameters). -/
structure HttpRequest where
  url : String
  q : String
  appid : String
  units : String

/-- The environment variables the program reads (`os.getenv`): `none` is an
unset variable. -/
structure Config where
  OPEN_WEATHER_API_KEY : Option String
  AWS_BUCKET_NAME : Option String
  AWS_REGION : Option String

/-- The `WeatherDashboard` object state set up by `__init__`. -/
structure WeatherDashboard where
  api_key : Option String
  bucket_name : Option String
  aws_region : String

/-- `WeatherDashboard.__init__`: load the key and bucket, default the region
to `eu-west-2` when the variable is unset. -/
def WeatherDashboard.init (cfg : Config) : WeatherDashboard :=
  { api_key := cfg.OPEN_WEATHER_API_KEY
    bucket_name := cfg.AWS_BUCKET_NAME
    aws_region := cfg.AWS_REGION.getD "eu-west-2" }

/-- `create_bucket_if_not_exists`, returning the list of S3 requests issued.
`headOk` is the oracle for whether `head_bucket` succeeds; every failure mode
of the probe lands in the single bare `except:` branch.  Exceptions from
`create_bucket` are caught, so they do not change which requests are made. -/
def create_bucket_if_not_exists (d : WeatherDashboard) (headOk : Bool) :
    List S3Request :=
  if truthyStr d.bucket_name = false then []
  else if headOk then [S3Request.headBucket d.bucket_name]
  else
    [S3Request.headBucket d.bucket_name] ++
      (if d.aws_region ≠ "us-east-1" then
        [S3Request.createBucket d.bucket_name (some d.aws_region)]
      else
        [S3Request.createBucket d.bucket_name none])

/-- `fetch_weather`: the first component is the return value (`none` is the
Python `None` failure signal), the second the HTTP requests issued.
`response` is the oracle for what `requests.get(...).json()` yields, `none`
meaning a transport error or non-2xx status. -/
def fetch_weather (d : WeatherDashboard) (city : String)
    (response : Option Json) : Option Json × List HttpRequest :=
  if truthyStr d.api_key = false then (none, [])
  else
    (response,
      [{ url := "http://api.openweathermap.org/data/2.5/weather"
         q := city
         appid := d.api_key.getD ""
         units := "imperial" }])

/-- Result of `save_to_s3`: the boolean return value, the payload object as
the caller sees it after the call (the source mutates it in place), and the
S3 requests issued. -/
structure SaveResult where
  ok : Bool
  payload : Json
  requests : List S3Request

/-- `save_to_s3`.  `now` is the clock oracle, `putOk` whether `put_object`
succeeds.  A non-dict truthy payload raises `TypeError` at the item
assignment inside the `try`, which the handler converts to `False` with no
request issued. -/
def save_to_s3 (d : WeatherDashboard) (weather_data : Json) (city : String)
    (now : DateTime) (putOk : Bool) : SaveResult :=
  if weather_data.falsy then
    { ok := false, payload := weather_data, requests := [] }
  else
    match weather_data with
    | Json.obj kvs =>
      let timestamp := strftime_key now
      let data := Json.obj (setKey kvs "timestamp" (Json.str timestamp))
      { ok := putOk
        payload := data
        requests := [S3Request.putObject d.bucket_name
          (archive_key city timestamp) data "application/json"] }
    | other => { ok := false, payload := other, requests := [] }

/-- The field extraction block of `main`
(`weather_data['main']['temp']` and friends): `none` is an unhandled
`KeyError` / `TypeError` / `IndexError` fault. -/
def extract_fields (j : Json) : Option (Json × Json × Json × Json) := do
  let m ← j.lookup "main"
  let temp ← m.lookup "temp"
  let feels_like ← m.lookup "feels_like"
  let humidity ← m.lookup "humidity"
  let w ← j.lookup "weather"
  let w0 ← w.index 0
  let description ← w0.lookup "description"
  some (temp, feels_like, humidity, description)

/-- One observable step of a run of `main`. -/
inductive Event where
  | provisionCall : Event
  | provision : S3Request → Event
  | fetchCall : String → Event
  | httpGet : String → HttpRequest → Event
  | extractFault : String → Event
  | archiveCall : String → Event
  | archivePut : String → S3Request → Event

/-- Which city an event belongs to (`none` for provisioning events). -/
def Event.cityOf : Event → Option String
  | .provisionCall => none
  | .provision _ => none
  | .fetchCall c => some c
  | .httpGet c _ => some c
  | .extractFault c => some c
  | .archiveCall c => some c
  | .archivePut c _ => some c

/-- Recognises the invocation of `create_bucket_if_not_exists`. -/
def Event.isProvisionCall : Event → Bool
  | .provisionCall => true
  | _ => false

/-- Recognises the `head_bucket` existence probe issued while provisioning. -/
def Event.isHeadProbe : Event → Bool
  | .provision (S3Request.headBucket _) => true
  | _ => false

/-- Recognises the `create_bucket` attempt issued while provisioning. -/
def Event.isCreateAttempt : Event → Bool
  | .provision (S3Request.createBucket _ _) => true
  | _ => false

/-- The outside world for one run: the S3 probe outcome, the HTTP response
per city, the put outcome per city, and the clock. -/
structure Oracle where
  headOk : Bool
  response : String → Option Json
  putOk : String → Bool
  now : DateTime

/-- The body of the per-city loop of `main` for one city: fetch, truthiness
test, display-field extraction, archive.  The boolean is `false` exactly when
the extraction block raised an unhandled fault. -/
def processCity (d : WeatherDashboard) (w : Oracle) (city : String) :
    List Event × Bool :=
  let fr := fetch_weather d city (w.response city)
  let fetchEvents := Event.fetchCall city :: fr.2.map (Event.httpGet city)
  match fr.1 with
  | none => (fetchEvents, true)
  | some wd =>
    if wd.falsy then (fetchEvents, true)
    else
      match extract_fields wd with
      | none => (fetchEvents ++ [Event.extractFault city], false)
      | some _ =>
        let sr := save_to_s3 d wd city w.now (w.putOk city)
        (fetchEvents ++
          Event.archiveCall city :: sr.requests.map (Event.archivePut city),
          true)

/-- The per-city loop of `main` over a city list.  An unhandled extraction
fault propagates out of the loop, so the remaining cities are not visited;
the boolean is `true` when the loop ran to completion. -/
def processCities (d : WeatherDashboard) (w : Oracle) :
    List String → List Event × Bool
  | [] => ([], true)
  | city :: rest =>
    let pc := processCity d w city
    if pc.2 then
      let r := processCities d w rest
      (pc.1 ++ r.1, r.2)
    else (pc.1, false)

/-- The fixed city list of `main`. -/
def cities : List String := ["Philadelphia", "Seattle", "New York"]

/-- `main`: construct the dashboard, provision once, then loop over the city
list.  Parameterised by the city list so that list-length-independent
properties can be stated; the program runs it on `cities`. -/
def main_run (cfg : Config) (w : Oracle) (cityList : List String) :
    List Event × Bool :=
  let d := WeatherDashboard.init cfg
  let prov := create_bucket_if_not_exists d w.headOk
  let r := processCities d w cityList
  (Event.provisionCall :: (prov.map Event.provision ++ r.1), r.2)

/-! ### Association-list lemmas for the Python dict operations -/

theorem lookupKey_setKey_self (kvs : List (String × Json)) (k : String)
    (v : Json) : lookupKey (setKey kvs k v) k = some v := by
  induction kvs with
  | nil => simp [setKey, lookupKey]
  | cons p rest ih =>
    by_cases h : p.1 = k
    · simp [setKey, h, lookupKey]
    · simp [setKey, h, lookupKey, ih]

theorem lookupKey_setKey_ne (kvs : List (String × Json)) (k k2 : String)
    (v : Json) (h : k2 ≠ k) :
    lookupKey (setKey kvs k v) k2 = lookupKey kvs k2 := by
  have hk : k ≠ k2 := fun he => h he.symm
  induction kvs with
  | nil => simp [setKey, lookupKey, hk]
  | cons p rest ih =>
    rcases p with ⟨pk, pv⟩
    by_cases hp : pk = k
    · subst hp
      simp [setKey, lookupKey, hk]
    · by_cases hq : pk = k2
      · subst hq
        simp [setKey, lookupKey, hp]
      · simp [setKey, lookupKey, hp, hq, ih]

/-- Unfolding of `save_to_s3` on a non-empty dict payload: the timestamp is
injected into the payload and a single put request is issued. -/
theorem save_to_s3_obj (d : WeatherDashboard) (kvs : List (String × Json))
    (city : String) (t : DateTime) (putOk : Bool) (h : kvs ≠ []) :
    save_to_s3 d (Json.obj kvs) city t putOk =
      { ok := putOk
        payload := Json.obj (setKey kvs "timestamp" (Json.str (strftime_key t)))
        requests := [S3Request.putObject d.bucket_name
          (archive_key city (strftime_key t))
          (Json.obj (setKey kvs "timestamp" (Json.str (strftime_key t))))
          "application/json"] } := by
  have hf : (Json.obj kvs).falsy = false := by
    cases kvs with
    | nil => exact absurd rfl h
    | cons p rest => rfl
  unfold save_to_s3
  rw [hf]
  simp

/-! ### Claim theorems on the fetcher and the archive writer -/

/-- C6: if the configured API key is empty or absent, then for every city and
every state of the HTTP world, `fetch_weather` returns the failure signal
(`None`) and issues no network request at all. -/
theorem claim_C6_missing_key_no_request (d : WeatherDashboard) (city : String)
    (resp : Option Json) (h : d.api_key = none ∨ d.api_key = some "") :
    fetch_weather d city resp = (none, []) := by
  have he : ("" : String).isEmpty = true := rfl
  rcases h with h | h <;> simp [fetch_weather, truthyStr, h, he]

def d_no_key : WeatherDashboard :=
  { api_key := none, bucket_name := some "bucket", aws_region := "eu-west-2" }

/-- Witness for C6 at a concrete dashboard with an unset key. -/
theorem claim_C6_missing_key_no_request_witness :
    fetch_weather d_no_key "Seattle" (some (Json.obj [("cod", Json.num 200)])) =
      (none, []) :=
  claim_C6_missing_key_no_request d_no_key "Seattle"
    (some (Json.obj [("cod", Json.num 200)])) (Or.inl rfl)

/-- C9: `fetch_weather` returns the identical failure value (`None`) both
when the API key is missing and when the HTTP request fails or returns a
non-success status, so the return value alone cannot distinguish the two
error conditions. -/
theorem claim_C9_indistinguishable_failures (d dm : WeatherDashboard)
    (city citym : String) (resp : Option Json)
    (h : truthyStr dm.api_key = false) :
    (fetch_weather dm citym resp).1 = none ∧
    (fetch_weather d city none).1 = none ∧
    (fetch_weather dm citym resp).1 = (fetch_weather d city none).1 := by
  have h1 : (fetch_weather dm citym resp).1 = none := by
    simp [fetch_weather, h]
  have h2 : (fetch_weather d city none).1 = none := by
    by_cases hc : truthyStr d.api_key = false <;> simp [fetch_weather, hc]
  exact ⟨h1, h2, h1.trans h2.symm⟩

def d_with_key : WeatherDashboard :=
  { api_key := some "k", bucket_name := some "bucket", aws_region := "eu-west-2" }

/-- Witness for C9: a missing-key failure and an HTTP failure produce the
same return value. -/
theorem claim_C9_indistinguishable_failures_witness :
    (fetch_weather d_no_key "Seattle" (some (Json.obj [("cod", Json.num 200)]))).1 =
      (fetch_weather d_with_key "Philadelphia" none).1 :=
  (claim_C9_indistinguishable_failures d_with_key d_no_key "Philadelphia"
    "Seattle" (some (Json.obj [("cod", Json.num 200)])) rfl).2.2

/-- C7: if the payload passed to the archive writer is null or an empty dict,
`save_to_s3` returns `False`, issues no storage call, and the payload object
the caller holds is unchanged. -/
theorem claim_C7_empty_payload_no_put (d : WeatherDashboard) (city : String)
    (now : DateTime) (putOk : Bool) (wd : Json)
    (h : wd = Json.null ∨ wd = Json.obj []) :
    save_to_s3 d wd city now putOk =
      { ok := false, payload := wd, requests := [] } := by
  rcases h with h | h <;> subst h <;> rfl

/-- Witness for C7 at the null payload. -/
theorem claim_C7_empty_payload_no_put_witness :
    save_to_s3 d_with_key Json.null "Seattle" ⟨2024, 3, 1, 9, 5, 7⟩ true =
      { ok := false, payload := Json.null, requests := [] } :=
  claim_C7_empty_payload_no_put d_with_key "Seattle" ⟨2024, 3, 1, 9, 5, 7⟩ true
    Json.null (Or.inl rfl)

/-- C3: every `create_bucket` call issued by provisioning is shaped by the
configured region: for the backend default region `us-east-1` the call
carries no location constraint, and for every other region it carries a
location constraint equal to the configured region; moreover when the bucket
name is set and the existence probe fails, such a creation call is issued. -/
theorem claim_C3_create_bucket_location_constraint (d : WeatherDashboard)
    (headOk : Bool) :
    (∀ b loc, S3Request.createBucket b loc ∈ create_bucket_if_not_exists d headOk →
      loc = if d.aws_region = "us-east-1" then none else some d.aws_region)
    ∧ (truthyStr d.bucket_name = true → headOk = false →
        S3Request.createBucket d.bucket_name
          (if d.aws_region = "us-east-1" then none else some d.aws_region) ∈
          create_bucket_if_not_exists d headOk) := by
  constructor
  · intro b loc hmem
    unfold create_bucket_if_not_exists at hmem
    by_cases hb : truthyStr d.bucket_name = false
    · simp [hb] at hmem
    · by_cases hh : headOk
      · simp [hb, hh] at hmem
      · by_cases hr : d.aws_region = "us-east-1"
        · simp [hb, hh, hr] at hmem
          simp [hr, hmem.2]
        · simp [hb, hh, hr] at hmem
          simp [hr, hmem.2]
  · intro hb hh
    subst hh
    unfold create_bucket_if_not_exists
    by_cases hr : d.aws_region = "us-east-1"
    · simp [hb, hr]
    · simp [hb, hr]

def d_eu : WeatherDashboard :=
  { api_key := some "k", bucket_name := some "bucket", aws_region := "eu-west-2" }

/-- Witness for C3: with region `eu-west-2` and a failing probe, the creation
call carries the location constraint `eu-west-2`. -/
theorem claim_C3_create_bucket_location_constraint_witness :
    ((some "eu-west-2" : Option String) =
      if ("eu-west-2" : String) = "us-east-1" then none else some "eu-west-2")
    ∧ S3Request.createBucket (some "bucket")
        (if ("eu-west-2" : String) = "us-east-1" then none else some "eu-west-2") ∈
        create_bucket_if_not_exists d_eu false := by
  have he : create_bucket_if_not_exists d_eu false =
      [S3Request.headBucket (some "bucket"),
       S3Request.createBucket (some "bucket") (some "eu-west-2")] := rfl
  constructor
  · exact (claim_C3_create_bucket_location_constraint d_eu false).1
      (some "bucket") (some "eu-west-2")
      (by rw [he]; exact List.mem_cons_of_mem _ (List.mem_cons_self _ _))
  · exact (claim_C3_create_bucket_location_constraint d_eu false).2 rfl rfl

/-- Shape of the request list issued by `save_to_s3`: either nothing was put,
or the payload was a non-empty dict and exactly one put was issued, with the
deterministic key and the timestamp-enriched body. -/
theorem save_requests_shape (d : WeatherDashboard) (wd : Json) (city : String)
    (t : DateTime) (putOk : Bool) :
    (save_to_s3 d wd city t putOk).requests = [] ∨
    ∃ kvs, wd = Json.obj kvs ∧ kvs ≠ [] ∧
      (save_to_s3 d wd city t putOk).requests =
        [S3Request.putObject d.bucket_name (archive_key city (strftime_key t))
          (Json.obj (setKey kvs "timestamp" (Json.str (strftime_key t))))
          "application/json"] := by
  cases wd with
  | obj kvs =>
    cases kvs with
    | nil => left; rfl
    | cons p rest =>
      right
      refine ⟨p :: rest, rfl, by simp, ?_⟩
      rw [save_to_s3_obj d (p :: rest) city t putOk (by simp)]
  | null => left; rfl
  | bool b =>
    cases b with
    | false => left; rfl
    | true => left; rfl
  | num n => left; unfold save_to_s3; split <;> rfl
  | str s => left; unfold save_to_s3; split <;> rfl
  | arr xs => left; unfold save_to_s3; split <;> rfl

/-- C5: every put issued by the archive writer uses the key
`weather-data/{city}-{timestamp}.json` with the timestamp formatted as
YYYYMMDD-HHMMSS; in particular city Seattle captured at 2024-03-01 09:05:07
yields exactly `weather-data/Seattle-20240301-090507.json`. -/
theorem claim_C5_archive_key_format :
    (∀ (d : WeatherDashboard) (wd : Json) (city : String) (t : DateTime)
        (putOk : Bool) (b : Option String) (key : String) (body : Json)
        (ct : String),
      S3Request.putObject b key body ct ∈ (save_to_s3 d wd city t putOk).requests →
      key = archive_key city (strftime_key t))
    ∧ strftime_key ⟨2024, 3, 1, 9, 5, 7⟩ = "20240301-090507"
    ∧ archive_key "Seattle" (strftime_key ⟨2024, 3, 1, 9, 5, 7⟩) =
        "weather-data/Seattle-20240301-090507.json" := by
  refine ⟨?_, by decide, by decide⟩
  intro d wd city t putOk b key body ct hmem
  rcases save_requests_shape d wd city t putOk with he | ⟨kvs, hwd, hne, he⟩
  · rw [he] at hmem
    simp at hmem
  · rw [he] at hmem
    simp at hmem
    exact hmem.2.1

/-- Witness for C5: the key of the put issued for a concrete Seattle payload
captured at 2024-03-01 09:05:07. -/
theorem claim_C5_archive_key_format_witness :
    "weather-data/Seattle-20240301-090507.json" =
      archive_key "Seattle" (strftime_key ⟨2024, 3, 1, 9, 5, 7⟩) := by
  have he : (save_to_s3 d_eu (Json.obj [("cod", Json.num 200)]) "Seattle"
      ⟨2024, 3, 1, 9, 5, 7⟩ true).requests =
      [S3Request.putObject (some "bucket")
        "weather-data/Seattle-20240301-090507.json"
        (Json.obj [("cod", Json.num 200), ("timestamp", Json.str "20240301-090507")])
        "application/json"] := rfl
  exact claim_C5_archive_key_format.1 d_eu (Json.obj [("cod", Json.num 200)])
    "Seattle" ⟨2024, 3, 1, 9, 5, 7⟩ true (some "bucket")
    "weather-data/Seattle-20240301-090507.json"
    (Json.obj [("cod", Json.num 200), ("timestamp", Json.str "20240301-090507")])
    "application/json" (by rw [he]; exact List.mem_cons_self _ _)

/-- Counterexample to C4 as stated: a fetched payload that already carries a
`timestamp` field does not keep its original value in the stored document —
the archive writer overwrites it with the capture timestamp.  The original
payload maps `timestamp` to `20231231-235959`, yet the stored body maps it to
the capture timestamp `20240301-090507`. -/
theorem claim_C4_counterexample :
    lookupKey [("timestamp", Json.str "20231231-235959")] "timestamp" =
      some (Json.str "20231231-235959")
    ∧ (save_to_s3 d_eu (Json.obj [("timestamp", Json.str "20231231-235959")])
        "Seattle" ⟨2024, 3, 1, 9, 5, 7⟩ true).requests =
      [S3Request.putObject (some "bucket")
        "weather-data/Seattle-20240301-090507.json"
        (Json.obj [("timestamp", Json.str "20240301-090507")])
        "application/json"]
    ∧ (Json.obj [("timestamp", Json.str "20240301-090507")]).lookup "timestamp" ≠
        some (Json.str "20231231-235959") := by
  refine ⟨rfl, rfl, ?_⟩
  simp [Json.lookup, lookupKey]

/-- C4 (amended): for every archived snapshot, the stored document read back
contains a `timestamp` field equal to the timestamp embedded in its object
key, and contains every field of the original fetched payload other than
`timestamp` with its original value unchanged. -/
theorem claim_C4_roundtrip (d : WeatherDashboard) (kvs : List (String × Json))
    (city : String) (t : DateTime) (putOk : Bool) (h : kvs ≠ []) :
    (save_to_s3 d (Json.obj kvs) city t putOk).requests =
      [S3Request.putObject d.bucket_name (archive_key city (strftime_key t))
        (Json.obj (setKey kvs "timestamp" (Json.str (strftime_key t))))
        "application/json"]
    ∧ (Json.obj (setKey kvs "timestamp" (Json.str (strftime_key t)))).lookup
        "timestamp" = some (Json.str (strftime_key t))
    ∧ ∀ k v, k ≠ "timestamp" → lookupKey kvs k = some v →
        (Json.obj (setKey kvs "timestamp" (Json.str (strftime_key t)))).lookup
          k = some v := by
  refine ⟨?_, ?_, ?_⟩
  · rw [save_to_s3_obj d kvs city t putOk h]
  · simp [Json.lookup, lookupKey_setKey_self]
  · intro k v hk hv
    simp [Json.lookup, lookupKey_setKey_ne kvs "timestamp" k
      (Json.str (strftime_key t)) hk, hv]

/-- Witness for C4 (amended) on a concrete two-field payload. -/
theorem claim_C4_roundtrip_witness :
    (save_to_s3 d_eu (Json.obj [("cod", Json.num 200)]) "Seattle"
        ⟨2024, 3, 1, 9, 5, 7⟩ true).requests =
      [S3Request.putObject (some "bucket")
        (archive_key "Seattle" (strftime_key ⟨2024, 3, 1, 9, 5, 7⟩))
        (Json.obj (setKey [("cod", Json.num 200)] "timestamp"
          (Json.str (strftime_key ⟨2024, 3, 1, 9, 5, 7⟩))))
        "application/json"]
    ∧ (Json.obj (setKey [("cod", Json.num 200)] "timestamp"
        (Json.str (strftime_key ⟨2024, 3, 1, 9, 5, 7⟩)))).lookup "cod" =
        some (Json.num 200) := by
  have h := claim_C4_roundtrip d_eu [("cod", Json.num 200)] "Seattle"
    ⟨2024, 3, 1, 9, 5, 7⟩ true (by simp)
  exact ⟨h.1, h.2.2 "cod" (Json.num 200) (by simp) rfl⟩

/-- C10: for every non-empty dict payload, `save_to_s3` mutates the caller
payload in place, setting its `timestamp` key to the freshly computed capture
timestamp (silently overwriting any prior value under that key); the put
stores exactly the mutated payload, and the mutation is not rolled back when
the put fails. -/
theorem claim_C10_payload_mutated (d : WeatherDashboard)
    (kvs : List (String × Json)) (city : String) (t : DateTime) (putOk : Bool)
    (h : kvs ≠ []) :
    (save_to_s3 d (Json.obj kvs) city t putOk).payload =
      Json.obj (setKey kvs "timestamp" (Json.str (strftime_key t)))
    ∧ ((save_to_s3 d (Json.obj kvs) city t putOk).payload).lookup "timestamp" =
        some (Json.str (strftime_key t))
    ∧ (save_to_s3 d (Json.obj kvs) city t putOk).requests =
        [S3Request.putObject d.bucket_name (archive_key city (strftime_key t))
          ((save_to_s3 d (Json.obj kvs) city t putOk).payload)
          "application/json"]
    ∧ (save_to_s3 d (Json.obj kvs) city t false).payload =
        (save_to_s3 d (Json.obj kvs) city t true).payload := by
  rw [save_to_s3_obj d kvs city t putOk h, save_to_s3_obj d kvs city t false h,
    save_to_s3_obj d kvs city t true h]
  exact ⟨rfl, by simp [Json.lookup, lookupKey_setKey_self], rfl, rfl⟩

/-- Witness for C10 on a payload that already holds a `timestamp` field: the
value is overwritten even though the put fails. -/
theorem claim_C10_payload_mutated_witness :
    (save_to_s3 d_eu (Json.obj [("timestamp", Json.str "20231231-235959")])
        "Seattle" ⟨2024, 3, 1, 9, 5, 7⟩ false).payload =
      Json.obj (setKey [("timestamp", Json.str "20231231-235959")] "timestamp"
        (Json.str (strftime_key ⟨2024, 3, 1, 9, 5, 7⟩)))
    ∧ ((save_to_s3 d_eu (Json.obj [("timestamp", Json.str "20231231-235959")])
        "Seattle" ⟨2024, 3, 1, 9, 5, 7⟩ false).payload).lookup "timestamp" =
        some (Json.str (strftime_key ⟨2024, 3, 1, 9, 5, 7⟩)) := by
  have h := claim_C10_payload_mutated d_eu
    [("timestamp", Json.str "20231231-235959")] "Seattle"
    ⟨2024, 3, 1, 9, 5, 7⟩ false (by simp)
  exact ⟨h.1, h.2.1⟩

/-! ### Trace lemmas for the orchestrator -/

theorem processCity_none (d : WeatherDashboard) (w : Oracle) (c : String)
    (h : (fetch_weather d c (w.response c)).1 = none) :
    processCity d w c =
      (Event.fetchCall c ::
        (fetch_weather d c (w.response c)).2.map (Event.httpGet c), true) := by
  unfold processCity
  dsimp only
  rw [h]

theorem processCity_falsy (d : WeatherDashboard) (w : Oracle) (c : String)
    (wd : Json) (h : (fetch_weather d c (w.response c)).1 = some wd)
    (hf : wd.falsy = true) :
    processCity d w c =
      (Event.fetchCall c ::
        (fetch_weather d c (w.response c)).2.map (Event.httpGet c), true) := by
  unfold processCity
  dsimp only
  rw [h]
  simp [hf]

theorem processCity_fault (d : WeatherDashboard) (w : Oracle) (c : String)
    (wd : Json) (h : (fetch_weather d c (w.response c)).1 = some wd)
    (hf : wd.falsy = false) (hx : extract_fields wd = none) :
    processCity d w c =
      (Event.fetchCall c ::
        ((fetch_weather d c (w.response c)).2.map (Event.httpGet c) ++
          [Event.extractFault c]), false) := by
  unfold processCity
  dsimp only
  rw [h]
  simp [hf, hx]

theorem processCity_archive (d : WeatherDashboard) (w : Oracle) (c : String)
    (wd : Json) (v : Json × Json × Json × Json)
    (h : (fetch_weather d c (w.response c)).1 = some wd)
    (hf : wd.falsy = false) (hx : extract_fields wd = some v) :
    processCity d w c =
      (Event.fetchCall c ::
        ((fetch_weather d c (w.response c)).2.map (Event.httpGet c) ++
          Event.archiveCall c ::
            (save_to_s3 d wd c w.now (w.putOk c)).requests.map
              (Event.archivePut c)), true) := by
  unfold processCity
  dsimp only
  rw [h]
  simp [hf, hx]

theorem processCities_cons_true (d : WeatherDashboard) (w : Oracle)
    (c : String) (rest : List String) (h : (processCity d w c).2 = true) :
    processCities d w (c :: rest) =
      ((processCity d w c).1 ++ (processCities d w rest).1,
        (processCities d w rest).2) := by
  rw [processCities]
  simp [h]

theorem processCities_cons_false (d : WeatherDashboard) (w : Oracle)
    (c : String) (rest : List String) (h : (processCity d w c).2 = false) :
    processCities d w (c :: rest) = ((processCity d w c).1, false) := by
  rw [processCities]
  simp [h]

/-- Every event emitted by the per-city step is tagged with that city. -/
theorem mem_processCity_cityOf (d : WeatherDashboard) (w : Oracle) (c : String)
    (e : Event) (he : e ∈ (processCity d w c).1) : e.cityOf = some c := by
  rcases hfr : (fetch_weather d c (w.response c)).1 with _ | wd
  · rw [processCity_none d w c hfr] at he
    simp only [List.mem_cons, List.mem_map] at he
    rcases he with rfl | ⟨r, _, rfl⟩ <;> rfl
  · by_cases hf : wd.falsy = true
    · rw [processCity_falsy d w c wd hfr hf] at he
      simp only [List.mem_cons, List.mem_map] at he
      rcases he with rfl | ⟨r, _, rfl⟩ <;> rfl
    · rcases hx : extract_fields wd with _ | v
      · rw [processCity_fault d w c wd hfr (by simpa using hf) hx] at he
        simp only [List.mem_cons, List.mem_append, List.mem_map,
          List.mem_singleton, List.not_mem_nil, or_false] at he
        rcases he with rfl | ⟨r, _, rfl⟩ | rfl <;> rfl
      · rw [processCity_archive d w c wd v hfr (by simpa using hf) hx] at he
        simp only [List.mem_cons, List.mem_append, List.mem_map] at he
        rcases he with rfl | ⟨r, _, rfl⟩ | rfl | ⟨r, _, rfl⟩ <;> rfl

/-- Every event of the per-city loop trace comes from the step of some city
in the list. -/
theorem mem_processCities (d : WeatherDashboard) (w : Oracle)
    (L : List String) (e : Event) (he : e ∈ (processCities d w L).1) :
    ∃ c ∈ L, e ∈ (processCity d w c).1 := by
  induction L with
  | nil => simp [processCities] at he
  | cons c rest ih =>
    by_cases hc : (processCity d w c).2 = true
    · rw [processCities_cons_true d w c rest hc] at he
      rcases List.mem_append.mp he with h1 | h1
      · exact ⟨c, List.mem_cons_self _ _, h1⟩
      · rcases ih h1 with ⟨x, hx, hx2⟩
        exact ⟨x, List.mem_cons_of_mem _ hx, hx2⟩
    · rw [processCities_cons_false d w c rest (by simpa using hc)] at he
      exact ⟨c, List.mem_cons_self _ _, he⟩

/-- When the fetch for a city fails, the per-city step emits only the fetch
events: no archive call and no storage put for that city. -/
theorem processCity_no_archive_of_none (d : WeatherDashboard) (w : Oracle)
    (city : String)
    (h : (fetch_weather d city (w.response city)).1 = none) :
    Event.archiveCall city ∉ (processCity d w city).1 ∧
    ∀ r, Event.archivePut city r ∉ (processCity d w city).1 := by
  rw [processCity_none d w city h]
  constructor
  · simp
  · intro r
    simp

/-- C1: for every city, if the fetch for that city returns the failure signal
(`None`), the orchestrator never calls the archive writer for that city and
no storage put is attempted for that city, on any run over any city list. -/
theorem claim_C1_failed_fetch_never_archives (cfg : Config) (w : Oracle)
    (L : List String) (city : String)
    (h : (fetch_weather (WeatherDashboard.init cfg) city (w.response city)).1 =
      none) :
    Event.archiveCall city ∉ (main_run cfg w L).1 ∧
    ∀ r, Event.archivePut city r ∉ (main_run cfg w L).1 := by
  have hmain : (main_run cfg w L).1 =
      Event.provisionCall ::
        ((create_bucket_if_not_exists (WeatherDashboard.init cfg)
            w.headOk).map Event.provision ++
          (processCities (WeatherDashboard.init cfg) w L).1) := rfl
  constructor
  · intro hmem
    rw [hmain] at hmem
    simp only [List.mem_cons, List.mem_append, List.mem_map] at hmem
    rcases hmem with h1 | ⟨r, _, h1⟩ | h1
    · exact Event.noConfusion h1
    · exact Event.noConfusion h1
    · rcases mem_processCities _ w L _ h1 with ⟨c, _, hc⟩
      have hco := mem_processCity_cityOf _ w c _ hc
      simp only [Event.cityOf, Option.some.injEq] at hco
      subst hco
      exact (processCity_no_archive_of_none _ w city h).1 hc
  · intro r hmem
    rw [hmain] at hmem
    simp only [List.mem_cons, List.mem_append, List.mem_map] at hmem
    rcases hmem with h1 | ⟨r2, _, h1⟩ | h1
    · exact Event.noConfusion h1
    · exact Event.noConfusion h1
    · rcases mem_processCities _ w L _ h1 with ⟨c, _, hc⟩
      have hco := mem_processCity_cityOf _ w c _ hc
      simp only [Event.cityOf, Option.some.injEq] at hco
      subst hco
      exact (processCity_no_archive_of_none _ w city h).2 r hc

def cfg_full : Config := ⟨some "k", some "bucket", none⟩

def oracle_fetch_fail : Oracle :=
  { headOk := true
    response := fun _ => none
    putOk := fun _ => true
    now := ⟨2024, 3, 1, 9, 5, 7⟩ }

/-- Witness for C1: on the configured city list with every fetch failing, no
archive call is made for Seattle. -/
theorem claim_C1_failed_fetch_never_archives_witness :
    Event.archiveCall "Seattle" ∉ (main_run cfg_full oracle_fetch_fail cities).1 :=
  (claim_C1_failed_fetch_never_archives cfg_full oracle_fetch_fail cities
    "Seattle" rfl).1

/-- A city is handled without an unhandled fault when its fetch either fails,
or yields a falsy payload, or yields a payload carrying every display field
the extraction block reads. -/
def cityWellFormed (d : WeatherDashboard) (w : Oracle) (c : String) : Bool :=
  match (fetch_weather d c (w.response c)).1 with
  | none => true
  | some wd => wd.falsy || (extract_fields wd).isSome

theorem processCity_complete (d : WeatherDashboard) (w : Oracle) (c : String)
    (h : cityWellFormed d w c = true) :
    (processCity d w c).2 = true ∧
    Event.fetchCall c ∈ (processCity d w c).1 := by
  unfold cityWellFormed at h
  rcases hfr : (fetch_weather d c (w.response c)).1 with _ | wd
  · rw [processCity_none d w c hfr]
    exact ⟨rfl, List.mem_cons_self _ _⟩
  · rw [hfr] at h
    dsimp only at h
    by_cases hf : wd.falsy = true
    · rw [processCity_falsy d w c wd hfr hf]
      exact ⟨rfl, List.mem_cons_self _ _⟩
    · have hf2 : wd.falsy = false := by simpa using hf
      rcases hv : extract_fields wd with _ | v
      · rw [hf2, hv] at h
        simp at h
      · rw [processCity_archive d w c wd v hfr hf2 hv]
        exact ⟨rfl, List.mem_cons_self _ _⟩

theorem processCities_complete (d : WeatherDashboard) (w : Oracle)
    (L : List String) (h : ∀ c ∈ L, cityWellFormed d w c = true) :
    (processCities d w L).2 = true ∧
    ∀ c ∈ L, Event.fetchCall c ∈ (processCities d w L).1 := by
  induction L with
  | nil => exact ⟨rfl, by simp⟩
  | cons c rest ih =>
    have hc := processCity_complete d w c (h c (List.mem_cons_self _ _))
    have hrest := ih (fun x hx => h x (List.mem_cons_of_mem _ hx))
    rw [processCities_cons_true d w c rest hc.1]
    refine ⟨hrest.1, ?_⟩
    intro x hx
    rcases List.mem_cons.mp hx with rfl | hx2
    · exact List.mem_append_left _ hc.2
    · exact List.mem_append_right _ (hrest.2 x hx2)

/-- C2 (amended): a fetch failure (the `None` signal), a falsy payload, or an
archive failure never aborts the run — every city in the list is still
attempted and the loop completes — provided every successfully fetched truthy
payload carries the expected display fields.  (A truthy payload missing such
a field raises an unhandled extraction fault that aborts the run; see the
counterexample.) -/
theorem claim_C2_no_failure_aborts (cfg : Config) (w : Oracle)
    (L : List String)
    (h : ∀ c ∈ L, cityWellFormed (WeatherDashboard.init cfg) w c = true) :
    (main_run cfg w L).2 = true ∧
    ∀ c ∈ L, Event.fetchCall c ∈ (main_run cfg w L).1 := by
  have hp := processCities_complete (WeatherDashboard.init cfg) w L h
  have h2 : (main_run cfg w L).2 =
      (processCities (WeatherDashboard.init cfg) w L).2 := rfl
  refine ⟨h2.trans hp.1, ?_⟩
  intro c hc
  exact List.mem_cons_of_mem _ (List.mem_append_right _ (hp.2 c hc))

/-- Witness for C2 (amended): with every fetch failing and the archive put
failing, the run over the configured city list still completes and Seattle is
attempted. -/
theorem claim_C2_no_failure_aborts_witness :
    (main_run cfg_full oracle_fetch_fail cities).2 = true ∧
    Event.fetchCall "Seattle" ∈ (main_run cfg_full oracle_fetch_fail cities).1 := by
  have h := claim_C2_no_failure_aborts cfg_full oracle_fetch_fail cities
    (fun c _ => rfl)
  exact ⟨h.1, h.2 "Seattle" (by simp [cities])⟩

def oracle_malformed : Oracle :=
  { headOk := true
    response := fun c =>
      if c = "Philadelphia" then some (Json.obj [("cod", Json.num 200)])
      else none
    putOk := fun _ => true
    now := ⟨2024, 3, 1, 9, 5, 7⟩ }

/-- Counterexample to C2 as stated: with full configuration present, a truthy
Philadelphia payload that lacks the `main` field makes the extraction block
fault, the run aborts, and the later cities Seattle and New York are never
attempted — so a single city failure does abort the run even though
configuration is not absent. -/
theorem claim_C2_counterexample :
    "Seattle" ∈ cities
    ∧ (main_run cfg_full oracle_malformed cities).2 = false
    ∧ Event.fetchCall "Seattle" ∉ (main_run cfg_full oracle_malformed cities).1
    ∧ Event.archiveCall "Philadelphia" ∉
        (main_run cfg_full oracle_malformed cities).1 := by
  have htr : (main_run cfg_full oracle_malformed cities).1 =
      [Event.provisionCall,
       Event.provision (S3Request.headBucket (some "bucket")),
       Event.fetchCall "Philadelphia",
       Event.httpGet "Philadelphia"
         { url := "http://api.openweathermap.org/data/2.5/weather"
           q := "Philadelphia", appid := "k", units := "imperial" },
       Event.extractFault "Philadelphia"] := rfl
  refine ⟨by simp [cities], rfl, ?_, ?_⟩ <;> rw [htr] <;> simp

/-- Recognises the existence probe among S3 requests. -/
def S3Request.isHead : S3Request → Bool
  | .headBucket _ => true
  | _ => false

/-- Recognises the creation attempt among S3 requests. -/
def S3Request.isCreate : S3Request → Bool
  | .createBucket _ _ => true
  | _ => false

theorem countP_processCities_zero (d : WeatherDashboard) (w : Oracle)
    (L : List String) (p : Event → Bool)
    (hp : ∀ e, p e = true → e.cityOf = none) :
    List.countP p (processCities d w L).1 = 0 := by
  refine List.countP_eq_zero.mpr ?_
  intro a ha hpa
  rcases mem_processCities d w L a ha with ⟨c, _, hc⟩
  have h1 := mem_processCity_cityOf d w c a hc
  rw [hp a hpa] at h1
  exact Option.noConfusion h1

theorem countP_head_create_bucket (d : WeatherDashboard) (ho : Bool) :
    List.countP S3Request.isHead (create_bucket_if_not_exists d ho) ≤ 1 ∧
    List.countP S3Request.isCreate (create_bucket_if_not_exists d ho) ≤ 1 := by
  unfold create_bucket_if_not_exists
  by_cases hb : truthyStr d.bucket_name = false
  · simp [hb, List.countP_nil]
  · by_cases hh : ho
    · simp [hb, hh, List.countP_cons, List.countP_nil, S3Request.isHead,
        S3Request.isCreate]
    · by_cases hr : d.aws_region = "us-east-1" <;>
        simp [hb, hh, hr, List.countP_cons, List.countP_nil, List.countP_append,
          S3Request.isHead, S3Request.isCreate]

/-- C8: in every run — whatever the configuration, the oracle answers, and
the length of the city list — the provisioning routine is invoked at most
once, the container existence probe is issued at most once, and the creation
attempt is issued at most once. -/
theorem claim_C8_provision_at_most_once (cfg : Config) (w : Oracle)
    (L : List String) :
    List.countP Event.isProvisionCall (main_run cfg w L).1 ≤ 1
    ∧ List.countP Event.isHeadProbe (main_run cfg w L).1 ≤ 1
    ∧ List.countP Event.isCreateAttempt (main_run cfg w L).1 ≤ 1 := by
  have hmain : (main_run cfg w L).1 =
      Event.provisionCall ::
        ((create_bucket_if_not_exists (WeatherDashboard.init cfg)
            w.headOk).map Event.provision ++
          (processCities (WeatherDashboard.init cfg) w L).1) := rfl
  rw [hmain]
  have hproc1 : List.countP Event.isProvisionCall
      (processCities (WeatherDashboard.init cfg) w L).1 = 0 := by
    refine countP_processCities_zero _ w L _ ?_
    intro e he
    cases e <;> first | rfl | simp [Event.isProvisionCall] at he
  have hproc2 : List.countP Event.isHeadProbe
      (processCities (WeatherDashboard.init cfg) w L).1 = 0 := by
    refine countP_processCities_zero _ w L _ ?_
    intro e he
    cases e <;> first | rfl | simp [Event.isHeadProbe] at he
  have hproc3 : List.countP Event.isCreateAttempt
      (processCities (WeatherDashboard.init cfg) w L).1 = 0 := by
    refine countP_processCities_zero _ w L _ ?_
    intro e he
    cases e <;> first | rfl | simp [Event.isCreateAttempt] at he
  have hmap1 : List.countP Event.isProvisionCall
      ((create_bucket_if_not_exists (WeatherDashboard.init cfg)
        w.headOk).map Event.provision) = 0 := by
    rw [List.countP_map]
    refine List.countP_eq_zero.mpr ?_
    intro r _ hr
    simp [Function.comp, Event.isProvisionCall] at hr
  have hmap2 : List.countP Event.isHeadProbe
      ((create_bucket_if_not_exists (WeatherDashboard.init cfg)
        w.headOk).map Event.provision) ≤ 1 := by
    rw [List.countP_map]
    have he : (Event.isHeadProbe ∘ Event.provision) = S3Request.isHead := by
      funext r
      cases r <;> rfl
    rw [he]
    exact (countP_head_create_bucket _ w.headOk).1
  have hmap3 : List.countP Event.isCreateAttempt
      ((create_bucket_if_not_exists (WeatherDashboard.init cfg)
        w.headOk).map Event.provision) ≤ 1 := by
    rw [List.countP_map]
    have he : (Event.isCreateAttempt ∘ Event.provision) = S3Request.isCreate := by
      funext r
      cases r <;> rfl
    rw [he]
    exact (countP_head_create_bucket _ w.headOk).2
  refine ⟨?_, ?_, ?_⟩
  · rw [List.countP_cons, List.countP_append, hmap1, hproc1,
      show Event.isProvisionCall Event.provisionCall = true from rfl,
      if_pos rfl]
  · rw [List.countP_cons, List.countP_append, hproc2,
      show Event.isHeadProbe Event.provisionCall = false from rfl,
      if_neg Bool.false_ne_true]
    simpa only [Nat.add_zero] using hmap2
  · rw [List.countP_cons, List.countP_append, hproc3,
      show Event.isCreateAttempt Event.provisionCall = false from rfl,
      if_neg Bool.false_ne_true]
    simpa only [Nat.add_zero] using hmap3
